import Mathlib

/-!
A verification development for the OIDC management-plane lambda functions:
the shared `utils` module (issuer-URL cache, signing-key lifecycle, JWT
issuance and verification, bcrypt password handling, DynamoDB accessors)
and the four management handlers (user, client, application,
user-application mapping).

Modelling conventions:
* DynamoDB tables are association lists of flat records (`Obj`), keyed by
  the records' own key attributes, exactly as the code stores them.
* The process state (`St`) carries the tables, the two SSM parameters, the
  module-level issuer-URL cache, the clock, an entropy counter feeding
  `uuidv4` and bcrypt salts, the next RSA key material the crypto library
  will produce, and read counters for the key-value store and the
  parameter store (so "performs no read" is expressible).
* External libraries are embedded through their interfaces: bcrypt digests
  are opaque values carrying what `hash`/`compare` expose; RSA key pairs
  are tagged strings whose pairing `rsaMatch` checks; `jsonwebtoken`
  tokens are records of the signed payload, header fields and signing key.
* Console invocation events are JSON objects; the handlers in scope are
  invoked with string-valued entity fields (the documented payload shapes),
  so field extraction treats non-string values as absent.
-/

namespace Oidc

/-- JSON-like values stored in DynamoDB records and console invocation
events. Bcrypt digests are strings in the running code; they are embedded
as a dedicated constructor carrying exactly the data the bcrypt library
exposes through its hash/compare interface. -/
inductive JVal where
  | jnull
  | jbool (b : Bool)
  | jnum (n : Int)
  | jstr (s : String)
  | jarrs (elems : List String)
  | jhash (pw : String) (cost : Nat) (salt : Nat)
deriving DecidableEq

/-- A flat JSON object: an ordered association list of fields. -/
abbrev Obj := List (String × JVal)

/-- Field lookup (first occurrence), i.e. JavaScript property access. -/
def getField : Obj → String → Option JVal
  | [], _ => none
  | p :: r, k => if p.1 == k then some p.2 else getField r k

/-- Property assignment: replace the field in place, or append it. -/
def setField : Obj → String → JVal → Obj
  | [], k, v => [(k, v)]
  | p :: r, k, v => if p.1 == k then (k, v) :: r else p :: setField r k v

/-- Property removal (rest-destructuring / delete). -/
def removeField : Obj → String → Obj
  | [], _ => []
  | p :: r, k => if p.1 == k then removeField r k else p :: removeField r k

/-- Spread merge: fields of `b` override fields of `a`, as in JS object
spread syntax. -/
def mergeObj (a b : Obj) : Obj := b.foldl (fun acc p => setField acc p.1 p.2) a

/-- A field read as a string, when it holds one. -/
def fieldStr (r : Obj) (k : String) : Option String :=
  match getField r k with
  | some (.jstr s) => some s
  | _ => none

/-- Event field extraction: the handlers in scope receive string-valued
entity fields; absent or non-string fields behave as the falsy empty
string. -/
def evStr (ev : Obj) (k : String) : String := (fieldStr ev k).getD ""

/-- JavaScript truthiness of a JSON value. -/
def truthy : JVal → Bool
  | .jnull => false
  | .jbool b => b
  | .jnum n => n != 0
  | .jstr s => s != ""
  | .jarrs _ => true
  | .jhash _ _ _ => true

/-- Truthiness of a possibly-absent property. -/
def truthyO : Option JVal → Bool
  | some v => truthy v
  | none => false

/-- String rendering used by template-literal interpolation. -/
def jsShow : JVal → String
  | .jnull => "null"
  | .jbool b => cond b "true" "false"
  | .jnum n => toString n
  | .jstr s => s
  | .jarrs xs => String.intercalate "," xs
  | .jhash _ _ _ => "[object]"

/-- Does record `r` hold string `v` at field `k`? (DynamoDB equality
condition against a string value.) -/
def fieldStrEq (r : Obj) (k v : String) : Bool := fieldStr r k == some v

/-- Do two records agree (as strings) on all of the key attributes? -/
def sameKeys (ks : List String) (a b : Obj) : Bool :=
  ks.all fun k =>
    match fieldStr a k, fieldStr b k with
    | some x, some y => x == y
    | _, _ => false

/-- DynamoDB PutItem: full overwrite of the item with the same primary
key, or insertion of a fresh item. -/
def putByKeys (ks : List String) (tbl : List Obj) (item : Obj) : List Obj :=
  if tbl.any (fun r => sameKeys ks r item) then
    tbl.map (fun r => if sameKeys ks r item then item else r)
  else tbl ++ [item]

/-- DynamoDB GetItem by string-valued key attributes. -/
def findByKeys (ks : List (String × String)) (tbl : List Obj) : Option Obj :=
  tbl.find? (fun r => ks.all (fun kv => fieldStrEq r kv.1 kv.2))

/-- Abstraction of `new Date().toISOString()`: an injective rendering of
the millisecond clock. -/
def isoTimestamp (ms : Nat) : String := "1970-01-01T00:00:00+" ++ toString ms ++ "ms"

/-- Abstraction of `uuidv4()`: a fresh identifier drawn from the entropy
counter. -/
def uuid (n : Nat) : String := "00000000-0000-4000-8000-" ++ toString n

/-- Digest produced by `bcrypt.hash(pw, cost)` with the library-chosen
salt. -/
def bcryptHash (pw : String) (cost salt : Nat) : JVal := .jhash pw cost salt

/-- The bcrypt compare primitive: a plaintext matches a digest exactly
when the digest was derived from that plaintext. -/
def bcryptCompare (pw : String) : Option JVal → Bool
  | some (.jhash p _ _) => pw == p
  | _ => false

/-- PEM rendering of the public half of an RSA key pair of the given
modulus length, generated from the library's entropy `seed`. -/
def rsaPub (bits : Nat) (seed : String) : String := "PUB:" ++ toString bits ++ ":" ++ seed

/-- PEM rendering of the private half of an RSA key pair. -/
def rsaPriv (bits : Nat) (seed : String) : String := "PRIV:" ++ toString bits ++ ":" ++ seed

/-- Embedding of `crypto.generateKeyPair('rsa', {modulusLength, ...})`:
returns `(publicKey, privateKey)`. -/
def generateKeyPair (modulusLength : Nat) (seed : String) : String × String :=
  (rsaPub modulusLength seed, rsaPriv modulusLength seed)

/-- Length contributed by one character inside a JSON string literal
(escaping as in `JSON.stringify`). -/
def escLen (c : Char) : Nat :=
  if c = '"' || c = '\\' then 2
  else if c = '\n' || c = '\t' || c = '\r' || c.toNat = 8 || c.toNat = 12 then 2
  else if c.toNat < 32 then 6
  else 1

/-- Length of the JSON string literal serializing `s`. -/
def jsonStrLen (s : String) : Nat := 2 + (s.data.map escLen).sum

/-- Length of the JSON serialization of a value. -/
def jvalJsonLen : JVal → Nat
  | .jnull => 4
  | .jbool b => cond b 4 5
  | .jnum n => (toString n).length
  | .jstr s => jsonStrLen s
  | .jarrs xs => 2 + (xs.map jsonStrLen).sum + (xs.length - 1)
  | .jhash _ _ _ => 62

/-- Length of `JSON.stringify` of a flat object. -/
def objJsonLen (o : Obj) : Nat :=
  2 + (o.map (fun p => jsonStrLen p.1 + 1 + jvalJsonLen p.2)).sum + (o.length - 1)

/-- Username validation: the regex `[a-zA-Z0-9_-]{3,50}` anchored at both
ends. -/
def usernameChar (c : Char) : Bool :=
  c.isAlpha || c.isDigit || c = '_' || c = '-'

/-- Identifier validation shared by usernames, client ids and application
ids: character class plus length bounds. -/
def idOk (lo hi : Nat) (s : String) : Bool :=
  lo ≤ s.length && s.length ≤ hi && s.data.all usernameChar

/-- Whitespace as matched by the ECMAScript `\s` class: tab, line feed,
vertical tab, form feed, carriage return, space, no-break space, the
Ogham space mark, the Unicode space separators, the line and paragraph
separators, the narrow and medium mathematical spaces, the ideographic
space and the zero-width no-break space. -/
def isWsChar (c : Char) : Bool :=
  c = ' ' || c = '\t' || c = '\n' || c = '\r' ||
  c.toNat = 0xB || c.toNat = 0xC || c.toNat = 0xA0 || c.toNat = 0x1680 ||
  (0x2000 ≤ c.toNat && c.toNat ≤ 0x200A) ||
  c.toNat = 0x2028 || c.toNat = 0x2029 || c.toNat = 0x202F ||
  c.toNat = 0x205F || c.toNat = 0x3000 || c.toNat = 0xFEFF

/-- Does the character list contain a dot that is neither first nor last?
This is exactly when the regex fragment between the at-sign and the end
can match. -/
def hasInnerDot (cs : List Char) : Bool :=
  match cs with
  | [] => false
  | _ :: rest => rest.dropLast.contains '.'

/-- The email regex of the source: exactly one at-sign, no whitespace on
either side of it, a nonempty local part, and a dot strictly inside the
domain part. -/
def emailOk (s : String) : Bool :=
  let l := s.data.takeWhile (fun c => c != '@')
  match s.data.dropWhile (fun c => c != '@') with
  | '@' :: d =>
    !l.isEmpty && !l.any isWsChar && !d.contains '@' && !d.any isWsChar && hasInnerDot d
  | _ => false

/-- Scheme extraction of the WHATWG URL parser, for the
`scheme://remainder` shapes these payloads contain; `none` models the
constructor throwing. The scheme runs to the first colon, which must be
followed by two slashes. -/
def urlScheme (s : String) : Option String :=
  let sch := s.data.takeWhile (fun c => c != ':')
  match s.data.dropWhile (fun c => c != ':') with
  | ':' :: '/' :: '/' :: _ =>
    if !sch.isEmpty &&
        sch.all (fun c => c.isAlpha || c.isDigit || c = '+' || c = '-' || c = '.')
    then some (String.mk sch ++ ":") else none
  | _ => none

/-- The process state: DynamoDB tables, the two SSM parameters, the
module-level issuer-URL cache, the clock, the entropy counter behind
`uuidv4` and bcrypt salting, the key material the next RSA generation
will produce, and read counters for the two external stores. -/
structure St where
  users : List Obj
  clients : List Obj
  applications : List Obj
  userApplications : List Obj
  ssmJwtKeys : Option Obj
  ssmIssuerUrl : Option String
  cachedIssuerUrl : Option String
  cacheTimestamp : Option Nat
  nowMs : Nat
  rng : Nat
  nextKeySeed : String
  reads : Nat
  ssmReads : Nat
deriving DecidableEq

/-- The DynamoDB tables of a state, for frame conditions. -/
def tables (st : St) : List Obj × List Obj × List Obj × List Obj :=
  (st.users, st.clients, st.applications, st.userApplications)

/-- Values appearing in a response body: strings and nested entity
objects. -/
inductive RVal where
  | s (v : String)
  | o (v : Obj)
deriving DecidableEq

/-- A response body, kept structured (the code serializes it with
`JSON.stringify`). -/
abbrev RBody := List (String × RVal)

/-- The uniform lambda response envelope. -/
structure Resp where
  statusCode : Nat
  headers : List (String × String)
  body : RBody
deriving DecidableEq

/-- The fixed CORS/content-type headers of `createResponse`. -/
def stdHeaders : List (String × String) :=
  [("Content-Type", "application/json"),
   ("Access-Control-Allow-Origin", "*"),
   ("Access-Control-Allow-Headers", "Content-Type,Authorization"),
   ("Access-Control-Allow-Methods", "GET,POST,OPTIONS")]

/-- `createResponse(statusCode, body)` from utils. -/
def createResponse (statusCode : Nat) (body : RBody) : Resp :=
  ⟨statusCode, stdHeaders, body⟩

/-- `createErrorResponse(error, description, statusCode)` from utils. -/
def createErrorResponse (error description : String) (statusCode : Nat) : Resp :=
  createResponse statusCode [("error", .s error), ("error_description", .s description)]

/-- Body field of a response, for stating error shapes. -/
def respField (r : Resp) (k : String) : Option RVal :=
  (r.body.find? (fun p => p.1 == k)).map Prod.snd

/-- Is this one of the 400 `invalid_request` error envelopes? -/
def isInvalidRequest (r : Resp) : Prop :=
  r.statusCode = 400 ∧ respField r "error" = some (.s "invalid_request")

/-- The five-minute TTL of the issuer-URL cache. -/
def CACHE_TTL_MS : Nat := 5 * 60 * 1000

/-- The guard `cachedIssuerUrl && cacheTimestamp && (now - cacheTimestamp)
< CACHE_TTL_MS` of `getIssuerUrl`, with JavaScript truthiness. -/
def cacheFresh (st : St) : Bool :=
  match st.cachedIssuerUrl, st.cacheTimestamp with
  | some u, some t => u != "" && t != 0 && decide (st.nowMs - t < CACHE_TTL_MS)
  | _, _ => false

/-- `getIssuerUrl()` from utils: serve from the module-level cache while
it is fresh, otherwise fetch the SSM parameter and refresh the cache; an
absent parameter makes the call throw. -/
def getIssuerUrl (st : St) : Except String String × St :=
  if cacheFresh st then
    (.ok (st.cachedIssuerUrl.getD ""), st)
  else
    match st.ssmIssuerUrl with
    | some v =>
      (.ok v, { st with cachedIssuerUrl := some v, cacheTimestamp := some st.nowMs,
                        ssmReads := st.ssmReads + 1 })
    | none =>
      (.error "OIDC issuer URL parameter not found in SSM",
       { st with ssmReads := st.ssmReads + 1 })

/-- The guard of `getSigningKeys`: the stored structure is complete when
both PEM halves are truthy. -/
def keysComplete (keys : Obj) : Bool :=
  truthyO (getField keys "private_key") && truthyO (getField keys "public_key")

/-- `getSigningKeys()` from utils: read the secret parameter (an absent
parameter throws and the catch rethrows); if the stored structure lacks a
private or public key, generate a 2048-bit RSA pair with a fresh key id
and the fixed RS256 tag, fail before the write when the serialization
exceeds 4096 characters, otherwise persist and return it; a complete
structure is returned as stored. -/
def getSigningKeys (st : St) : Except String Obj × St :=
  match st.ssmJwtKeys with
  | none => (.error "ParameterNotFound", { st with ssmReads := st.ssmReads + 1 })
  | some keys =>
    let st1 : St := { st with ssmReads := st.ssmReads + 1 }
    if keysComplete keys then (.ok keys, st1)
    else
      let pair := generateKeyPair 2048 st1.nextKeySeed
      let kid := uuid st1.rng
      let st2 : St := { st1 with rng := st1.rng + 1 }
      let newKeys : Obj :=
        [("private_key", .jstr pair.2), ("public_key", .jstr pair.1),
         ("kid", .jstr kid), ("alg", .jstr "RS256")]
      if objJsonLen newKeys > 4096 then
        (.error ("JWT keys too large for SSM parameter: " ++
                 toString (objJsonLen newKeys) ++ " bytes (max 4096)"), st2)
      else
        (.ok newKeys, { st2 with ssmJwtKeys := some newKeys })

/-- `getUserById(userId)`: GetItem on the users table. -/
def getUserById (userId : String) (st : St) : Option Obj × St :=
  (findByKeys [("user_id", userId)] st.users, { st with reads := st.reads + 1 })

/-- `getUserByUsername(username)`: query the username index and take the
first item, if any. -/
def getUserByUsername (username : String) (st : St) : Option Obj × St :=
  ((st.users.filter (fun r => fieldStrEq r "username" username)).head?,
   { st with reads := st.reads + 1 })

/-- `createUser(username, password, email)` from utils: a generated user
id, a bcrypt digest with cost 10, the verification flag cleared and both
timestamps stamped; the record is written to the users table. The extra
`profile` argument some callers pass does not occur in its parameter list
and is dropped at the call boundary. -/
def createUser (username password email : String) (st : St) : Obj × St :=
  let userId := uuid st.rng
  let salt := st.rng + 1
  let user : Obj :=
    [("user_id", .jstr userId),
     ("username", .jstr username),
     ("password_hash", bcryptHash password 10 salt),
     ("email", .jstr email),
     ("email_verified", .jbool false),
     ("created_at", .jstr (isoTimestamp st.nowMs)),
     ("updated_at", .jstr (isoTimestamp st.nowMs))]
  (user, { st with rng := st.rng + 2, users := putByKeys ["user_id"] st.users user })

/-- `verifyUserPassword(username, password)` from utils: look the user up
by username and compare the plaintext against the stored digest. -/
def verifyUserPassword (username password : String) (st : St) : Option Obj × St :=
  match getUserByUsername username st with
  | (none, st1) => (none, st1)
  | (some user, st1) =>
    if bcryptCompare password (getField user "password_hash") then (some user, st1)
    else (none, st1)

/-- `updateUserPassword(userId, newPassword)` from utils. -/
def updateUserPassword (userId newPassword : String) (st : St) : Option Obj × St :=
  match getUserById userId st with
  | (none, st1) => (none, st1)
  | (some user, st1) =>
    let user1 := setField user "password_hash" (bcryptHash newPassword 10 st1.rng)
    let user2 := setField user1 "updated_at" (.jstr (isoTimestamp st1.nowMs))
    (some user2, { st1 with rng := st1.rng + 1,
                            users := putByKeys ["user_id"] st1.users user2 })

/-- `getClientById(clientId)`: GetItem on the clients table. -/
def getClientById (clientId : String) (st : St) : Option Obj × St :=
  (findByKeys [("client_id", clientId)] st.clients, { st with reads := st.reads + 1 })

/-- `validateClient(clientId, clientSecret, redirectUri)` from utils. -/
def validateClient (clientId : String) (clientSecret redirectUri : Option String)
    (st : St) : Option Obj × St :=
  match getClientById clientId st with
  | (none, st1) => (none, st1)
  | (some client, st1) =>
    if clientSecret.any (fun s => s != "" && !(fieldStrEq client "client_secret" s)) then
      (none, st1)
    else if redirectUri.any (fun u => u != "" &&
        !(match getField client "redirect_uris" with
          | some (.jarrs us) => us.contains u
          | _ => false)) then
      (none, st1)
    else (some client, st1)

/-- `createClient(clientId, clientSecret, redirectUris, name, description)`
from utils. -/
def createClient (clientId clientSecret : String) (redirectUris : List String)
    (name description : String) (st : St) : Obj × St :=
  let client : Obj :=
    [("client_id", .jstr clientId),
     ("client_secret", .jstr clientSecret),
     ("redirect_uris", .jarrs redirectUris),
     ("name", .jstr name),
     ("description", .jstr description),
     ("created_at", .jstr (isoTimestamp st.nowMs)),
     ("updated_at", .jstr (isoTimestamp st.nowMs))]
  (client, { st with clients := putByKeys ["client_id"] st.clients client })

/-- `updateClient(clientId, updates)` from utils: spread the stored
record, spread the updates over it, pin `client_id` back to the key and
stamp a fresh `updated_at`; throws when the client is missing. -/
def updateClient (clientId : String) (updates : Obj) (st : St) : Except String Obj × St :=
  match getClientById clientId st with
  | (none, st1) => (.error "Client not found", st1)
  | (some client, st1) =>
    let updated :=
      setField (setField (mergeObj client updates) "client_id" (.jstr clientId))
        "updated_at" (.jstr (isoTimestamp st1.nowMs))
    (.ok updated, { st1 with clients := putByKeys ["client_id"] st1.clients updated })

/-- `getApplicationById(applicationId)`: GetItem on the applications
table. -/
def getApplicationById (applicationId : String) (st : St) : Option Obj × St :=
  (findByKeys [("application_id", applicationId)] st.applications,
   { st with reads := st.reads + 1 })

/-- `createApplication(applicationId, clientId, name, description,
account)` from utils; a falsy application id is replaced by a generated
one. -/
def createApplication (applicationId clientId name description account : String)
    (st : St) : Obj × St :=
  let appId := if applicationId == "" then uuid st.rng else applicationId
  let rng1 := if applicationId == "" then st.rng + 1 else st.rng
  let application : Obj :=
    [("application_id", .jstr appId),
     ("client_id", .jstr clientId),
     ("name", .jstr name),
     ("description", .jstr description),
     ("account", .jstr account),
     ("created_at", .jstr (isoTimestamp st.nowMs)),
     ("updated_at", .jstr (isoTimestamp st.nowMs))]
  (application, { st with rng := rng1,
                          applications := putByKeys ["application_id"] st.applications application })

/-- `updateApplication(applicationId, updates)` from utils. -/
def updateApplication (applicationId : String) (updates : Obj) (st : St) :
    Except String Obj × St :=
  match getApplicationById applicationId st with
  | (none, st1) => (.error "Application not found", st1)
  | (some application, st1) =>
    let updated :=
      setField (setField (mergeObj application updates) "application_id" (.jstr applicationId))
        "updated_at" (.jstr (isoTimestamp st1.nowMs))
    (.ok updated,
     { st1 with applications := putByKeys ["application_id"] st1.applications updated })

/-- `getUserApplication(userId, applicationId)`: GetItem on the composite
key. -/
def getUserApplication (userId applicationId : String) (st : St) : Option Obj × St :=
  (findByKeys [("user_id", userId), ("application_id", applicationId)] st.userApplications,
   { st with reads := st.reads + 1 })

/-- `createUserApplication(userId, applicationId, account)` from utils. -/
def createUserApplication (userId applicationId account : String) (st : St) : Obj × St :=
  let userApplication : Obj :=
    [("user_id", .jstr userId),
     ("application_id", .jstr applicationId),
     ("account", .jstr account),
     ("created_at", .jstr (isoTimestamp st.nowMs)),
     ("updated_at", .jstr (isoTimestamp st.nowMs))]
  (userApplication,
   { st with userApplications :=
       putByKeys ["user_id", "application_id"] st.userApplications userApplication })

/-- `updateUserApplication(userId, applicationId, updates)` from utils:
both halves of the composite key are pinned back after the merge. -/
def updateUserApplication (userId applicationId : String) (updates : Obj) (st : St) :
    Except String Obj × St :=
  match getUserApplication userId applicationId st with
  | (none, st1) => (.error "User-application mapping not found", st1)
  | (some userApplication, st1) =>
    let updated :=
      setField (setField
        (setField (mergeObj userApplication updates) "user_id" (.jstr userId))
        "application_id" (.jstr applicationId))
        "updated_at" (.jstr (isoTimestamp st1.nowMs))
    (.ok updated,
     { st1 with userApplications :=
         putByKeys ["user_id", "application_id"] st1.userApplications updated })

/-- The redirect-URI loop of the client handlers: the first URI the URL
constructor rejects or whose protocol is neither http nor https produces
the corresponding error response. -/
def checkUris : List String → Option Resp
  | [] => none
  | u :: rest =>
    match urlScheme u with
    | none =>
      some (createErrorResponse "invalid_request" ("Invalid redirect URI format: " ++ u) 400)
    | some p =>
      if p != "https:" && p != "http:" then
        some (createErrorResponse "invalid_request"
          ("Invalid redirect URI protocol: " ++ u ++ ". Must use http or https") 400)
      else checkUris rest

namespace ManagementUser

/-- `handleCreateUser(event)` of management-user. -/
def handleCreateUser (ev : Obj) (st : St) : Resp × St :=
  let u := evStr ev "username"
  let p := evStr ev "password"
  let em := evStr ev "email"
  if u == "" || p == "" || em == "" then
    (createErrorResponse "invalid_request"
      "Missing required parameters: username, password, and email are required" 400, st)
  else if !idOk 3 50 u then
    (createErrorResponse "invalid_request"
      "Invalid username format. Username must be 3-50 characters and contain only letters, numbers, dashes, and underscores" 400, st)
  else if !emailOk em then
    (createErrorResponse "invalid_request" "Invalid email format" 400, st)
  else if p.length < 8 then
    (createErrorResponse "invalid_request" "Password must be at least 8 characters long" 400, st)
  else
    match getUserByUsername u st with
    | (some _, st1) =>
      (createErrorResponse "invalid_request" "Username already exists" 400, st1)
    | (none, st1) =>
      let pair := createUser u p em st1
      (createResponse 200
        [("message", .s "User created successfully"),
         ("user", .o (removeField pair.1 "password_hash"))], pair.2)

/-- `handleResetPassword(event)` of management-user. -/
def handleResetPassword (ev : Obj) (st : St) : Resp × St :=
  let u := evStr ev "username"
  let np := evStr ev "newPassword"
  if u == "" || np == "" then
    (createErrorResponse "invalid_request"
      "Missing required parameters: username and newPassword are required" 400, st)
  else if np.length < 8 then
    (createErrorResponse "invalid_request" "Password must be at least 8 characters long" 400, st)
  else
    match getUserByUsername u st with
    | (none, st1) => (createErrorResponse "invalid_request" "User not found" 400, st1)
    | (some user, st1) =>
      let r := updateUserPassword ((fieldStr user "user_id").getD "") np st1
      (createResponse 200
        [("message", .s "Password reset successfully"), ("username", .s u)], r.2)

/-- The management-user dispatcher. -/
def handler (ev : Obj) (st : St) : Resp × St :=
  let op := getField ev "operation"
  if !truthyO op then
    (createErrorResponse "invalid_request"
      "Missing operation parameter. Valid operations: createUser, resetPassword" 400, st)
  else if op == some (.jstr "createUser") then handleCreateUser ev st
  else if op == some (.jstr "resetPassword") then handleResetPassword ev st
  else
    (createErrorResponse "invalid_request"
      ("Unknown operation: " ++ jsShow (op.getD .jnull) ++
       ". Valid operations: createUser, resetPassword") 400, st)

end ManagementUser

namespace ManagementClient

/-- `handleCreateClient(event)` of management-client. -/
def handleCreateClient (ev : Obj) (st : St) : Resp × St :=
  let cid := evStr ev "client_id"
  let secret := evStr ev "client_secret"
  let name := evStr ev "name"
  if cid == "" || secret == "" || !truthyO (getField ev "redirect_uris") || name == "" then
    (createErrorResponse "invalid_request"
      "Missing required parameters: client_id, client_secret, redirect_uris, and name are required" 400, st)
  else if !idOk 3 100 cid then
    (createErrorResponse "invalid_request"
      "Invalid client_id format. Must be 3-100 characters and contain only letters, numbers, dashes, and underscores" 400, st)
  else
    match getField ev "redirect_uris" with
    | some (.jarrs us) =>
      if us.isEmpty then
        (createErrorResponse "invalid_request"
          "redirect_uris must be a non-empty array of URLs" 400, st)
      else
        match checkUris us with
        | some r => (r, st)
        | none =>
          match getClientById cid st with
          | (some _, st1) =>
            (createErrorResponse "invalid_request" "Client ID already exists" 400, st1)
          | (none, st1) =>
            let pair := createClient cid secret us name (evStr ev "description") st1
            (createResponse 200
              [("message", .s "Client created successfully"), ("client", .o pair.1)], pair.2)
    | _ =>
      (createErrorResponse "invalid_request"
        "redirect_uris must be a non-empty array of URLs" 400, st)

/-- `handleUpdateClient(event)` of management-client. -/
def handleUpdateClient (ev : Obj) (st : St) : Resp × St :=
  let cid := evStr ev "client_id"
  let updates := removeField (removeField ev "client_id") "operation"
  if cid == "" then
    (createErrorResponse "invalid_request" "Missing required parameter: client_id" 400, st)
  else if updates.isEmpty then
    (createErrorResponse "invalid_request" "No update parameters provided" 400, st)
  else
    let go : St → Resp × St := fun st0 =>
      match getClientById cid st0 with
      | (none, st1) => (createErrorResponse "invalid_request" "Client not found" 400, st1)
      | (some _, st1) =>
        match updateClient cid updates st1 with
        | (.ok updated, st2) =>
          (createResponse 200
            [("message", .s "Client updated successfully"), ("client", .o updated)], st2)
        | (.error e, st2) =>
          (createErrorResponse "server_error" ("Internal server error: " ++ e) 500, st2)
    match getField updates "redirect_uris" with
    | some v =>
      if truthy v then
        match v with
        | .jarrs us =>
          if us.isEmpty then
            (createErrorResponse "invalid_request"
              "redirect_uris must be a non-empty array of URLs" 400, st)
          else
            match checkUris us with
            | some r => (r, st)
            | none => go st
        | _ =>
          (createErrorResponse "invalid_request"
            "redirect_uris must be a non-empty array of URLs" 400, st)
      else go st
    | none => go st

/-- The management-client dispatcher. -/
def handler (ev : Obj) (st : St) : Resp × St :=
  let op := getField ev "operation"
  if !truthyO op then
    (createErrorResponse "invalid_request"
      "Missing operation parameter. Valid operations: createClient, updateClient" 400, st)
  else if op == some (.jstr "createClient") then handleCreateClient ev st
  else if op == some (.jstr "updateClient") then handleUpdateClient ev st
  else
    (createErrorResponse "invalid_request"
      ("Unknown operation: " ++ jsShow (op.getD .jnull) ++
       ". Valid operations: createClient, updateClient") 400, st)

end ManagementClient

namespace ManagementApplication

/-- `handleCreateApplication(event)` of management-application. -/
def handleCreateApplication (ev : Obj) (st : St) : Resp × St :=
  let appId := evStr ev "application_id"
  let cid := evStr ev "client_id"
  let name := evStr ev "name"
  if cid == "" || name == "" then
    (createErrorResponse "invalid_request"
      "Missing required parameters: client_id and name are required" 400, st)
  else if appId != "" && !idOk 3 100 appId then
    (createErrorResponse "invalid_request"
      "Invalid application_id format. Must be 3-100 characters and contain only letters, numbers, dashes, and underscores" 400, st)
  else
    match getClientById cid st with
    | (none, st1) =>
      (createErrorResponse "invalid_request"
        "Client ID not found. Please create the client first" 400, st1)
    | (some _, st1) =>
      let create : St → Resp × St := fun st0 =>
        let pair := createApplication appId cid name (evStr ev "description")
          (evStr ev "account") st0
        (createResponse 200
          [("message", .s "Application created successfully"),
           ("application", .o pair.1)], pair.2)
      if appId != "" then
        match getApplicationById appId st1 with
        | (some _, st2) =>
          (createErrorResponse "invalid_request" "Application ID already exists" 400, st2)
        | (none, st2) => create st2
      else create st1

/-- `handleUpdateApplication(event)` of management-application. -/
def handleUpdateApplication (ev : Obj) (st : St) : Resp × St :=
  let appId := evStr ev "application_id"
  let updates := removeField (removeField ev "application_id") "operation"
  if appId == "" then
    (createErrorResponse "invalid_request" "Missing required parameter: application_id" 400, st)
  else if updates.isEmpty then
    (createErrorResponse "invalid_request" "No update parameters provided" 400, st)
  else
    let go : St → Resp × St := fun st0 =>
      match getApplicationById appId st0 with
      | (none, st1) =>
        (createErrorResponse "invalid_request" "Application not found" 400, st1)
      | (some _, st1) =>
        match updateApplication appId updates st1 with
        | (.ok updated, st2) =>
          (createResponse 200
            [("message", .s "Application updated successfully"),
             ("application", .o updated)], st2)
        | (.error e, st2) =>
          (createErrorResponse "server_error" ("Internal server error: " ++ e) 500, st2)
    let ucid := evStr updates "client_id"
    if ucid != "" then
      match getClientById ucid st with
      | (none, st1) =>
        (createErrorResponse "invalid_request"
          "Client ID not found. Cannot update to non-existent client" 400, st1)
      | (some _, st1) => go st1
    else go st

/-- The management-application dispatcher. -/
def handler (ev : Obj) (st : St) : Resp × St :=
  let op := getField ev "operation"
  if !truthyO op then
    (createErrorResponse "invalid_request"
      "Missing operation parameter. Valid operations: createApplication, updateApplication" 400, st)
  else if op == some (.jstr "createApplication") then handleCreateApplication ev st
  else if op == some (.jstr "updateApplication") then handleUpdateApplication ev st
  else
    (createErrorResponse "invalid_request"
      ("Unknown operation: " ++ jsShow (op.getD .jnull) ++
       ". Valid operations: createApplication, updateApplication") 400, st)

end ManagementApplication

namespace ManagementUserApplication

/-- `handleCreateUserApplication(event)` of management-user-application. -/
def handleCreateUserApplication (ev : Obj) (st : St) : Resp × St :=
  let uid := evStr ev "user_id"
  let aid := evStr ev "application_id"
  if uid == "" || aid == "" then
    (createErrorResponse "invalid_request"
      "Missing required parameters: user_id and application_id are required" 400, st)
  else
    match getUserById uid st with
    | (none, st1) =>
      (createErrorResponse "invalid_request"
        "User ID not found. Please create the user first" 400, st1)
    | (some _, st1) =>
      match getApplicationById aid st1 with
      | (none, st2) =>
        (createErrorResponse "invalid_request"
          "Application ID not found. Please create the application first" 400, st2)
      | (some _, st2) =>
        match getUserApplication uid aid st2 with
        | (some _, st3) =>
          (createErrorResponse "invalid_request"
            "User-application mapping already exists. Use updateUserApplication to modify it" 400, st3)
        | (none, st3) =>
          let pair := createUserApplication uid aid (evStr ev "account") st3
          (createResponse 200
            [("message", .s "User-application mapping created successfully"),
             ("user_application", .o pair.1)], pair.2)

/-- `handleUpdateUserApplication(event)` of management-user-application. -/
def handleUpdateUserApplication (ev : Obj) (st : St) : Resp × St :=
  let uid := evStr ev "user_id"
  let aid := evStr ev "application_id"
  let updates := removeField (removeField (removeField ev "user_id") "application_id") "operation"
  if uid == "" || aid == "" then
    (createErrorResponse "invalid_request"
      "Missing required parameters: user_id and application_id are required" 400, st)
  else if updates.isEmpty then
    (createErrorResponse "invalid_request" "No update parameters provided" 400, st)
  else
    match getUserApplication uid aid st with
    | (none, st1) =>
      (createErrorResponse "invalid_request"
        "User-application mapping not found. Use createUserApplication to create it first" 400, st1)
    | (some _, st1) =>
      match updateUserApplication uid aid updates st1 with
      | (.ok updated, st2) =>
        (createResponse 200
          [("message", .s "User-application mapping updated successfully"),
           ("user_application", .o updated)], st2)
      | (.error e, st2) =>
        (createErrorResponse "server_error" ("Internal server error: " ++ e) 500, st2)

/-- The management-user-application dispatcher. -/
def handler (ev : Obj) (st : St) : Resp × St :=
  let op := getField ev "operation"
  if !truthyO op then
    (createErrorResponse "invalid_request"
      "Missing operation parameter. Valid operations: createUserApplication, updateUserApplication" 400, st)
  else if op == some (.jstr "createUserApplication") then handleCreateUserApplication ev st
  else if op == some (.jstr "updateUserApplication") then handleUpdateUserApplication ev st
  else
    (createErrorResponse "invalid_request"
      ("Unknown operation: " ++ jsShow (op.getD .jnull) ++
       ". Valid operations: createUserApplication, updateUserApplication") 400, st)

end ManagementUserApplication

/-- A quiescent process state, used to build concrete instances. -/
def baseSt : St := ⟨[], [], [], [], none, none, none, none, 0, 0, "", 0, 0⟩

/-- Key material long enough that the serialized key structure exceeds
the SSM size ceiling. -/
def bigSeed : String := String.mk (List.replicate 4200 'a')

lemma jsonStrLen_append_big (pre : String) :
    jsonStrLen (pre ++ bigSeed) = 2 + (pre.data.map escLen).sum + 4200 := by
  have hdata : (pre ++ bigSeed).data = pre.data ++ List.replicate 4200 'a' := by
    cases pre
    rfl
  unfold jsonStrLen
  rw [hdata, List.map_append, List.sum_append, List.map_replicate]
  have h1 : escLen 'a' = 1 := by decide
  rw [h1, List.sum_replicate]
  simp [Nat.add_assoc]

/-!  Helper lemmas about objects and tables. -/

/-- First-match choice between two optional field values, as object
spread produces it. -/
def fieldOr (x y : Option JVal) : Option JVal :=
  match x with
  | some v => some v
  | none => y

lemma getField_setField_self (r : Obj) (k : String) (v : JVal) :
    getField (setField r k v) k = some v := by
  induction r with
  | nil => simp [setField, getField]
  | cons p r ih =>
    by_cases h : p.1 = k
    · simp [setField, getField, h]
    · simp [setField, getField, h, ih]

lemma getField_setField_ne (r : Obj) (k k' : String) (v : JVal) (h : k' ≠ k) :
    getField (setField r k v) k' = getField r k' := by
  induction r with
  | nil => simp [setField, getField, Ne.symm h]
  | cons p r ih =>
    by_cases hp : p.1 = k
    · simp [setField, getField, hp, Ne.symm h]
    · simp [setField, getField, hp, ih]

lemma getField_eq_none_of_not_mem (b : Obj) (k : String)
    (h : k ∉ b.map Prod.fst) : getField b k = none := by
  induction b with
  | nil => rfl
  | cons p b ih =>
    simp only [List.map_cons, List.mem_cons] at h
    push_neg at h
    simp [getField, Ne.symm h.1, ih h.2]

lemma getField_mergeObj (a b : Obj) (k : String)
    (hnd : (b.map Prod.fst).Nodup) :
    getField (mergeObj a b) k = fieldOr (getField b k) (getField a k) := by
  induction b generalizing a with
  | nil => simp [mergeObj, getField, fieldOr]
  | cons p b ih =>
    have hstep : mergeObj a (p :: b) = mergeObj (setField a p.1 p.2) b := rfl
    simp only [List.map_cons, List.nodup_cons] at hnd
    rw [hstep, ih _ hnd.2]
    by_cases hk : k = p.1
    · rw [hk, getField_eq_none_of_not_mem b p.1 hnd.1, getField_setField_self]
      simp [getField, fieldOr]
    · rw [getField_setField_ne _ _ _ _ hk]
      simp [getField, Ne.symm hk]

lemma sameKeys_single (k : String) (a b : Obj) (h : sameKeys [k] a b = true) :
    fieldStr a k = fieldStr b k := by
  simp only [sameKeys, List.all_cons, List.all_nil, Bool.and_true] at h
  cases hx : fieldStr a k <;> cases hy : fieldStr b k <;> rw [hx, hy] at h
  case none.some => simp at h
  case some.none => simp at h
  case some.some =>
    simp only [beq_iff_eq] at h
    rw [h]

lemma putByKeys_filter_head (ks : List String) (tbl : List Obj) (item : Obj)
    (p : Obj → Bool) (hall : ∀ r ∈ tbl, p r = false) (hitem : p item = true) :
    ((putByKeys ks tbl item).filter p).head? = some item := by
  unfold putByKeys
  by_cases hany : tbl.any (fun r => sameKeys ks r item) = true
  · rw [if_pos hany]
    induction tbl with
    | nil => simp at hany
    | cons r tbl ih =>
      cases ha : sameKeys ks r item with
      | true => simp [ha, hitem]
      | false =>
        have hr : p r = false := hall r (List.mem_cons_self r tbl)
        have hany' : tbl.any (fun r => sameKeys ks r item) = true := by
          simpa [ha] using hany
        simpa [ha, hr] using ih (fun x hx => hall x (List.mem_cons_of_mem r hx)) hany'
  · rw [if_neg hany]
    have hnil : tbl.filter p = [] := List.filter_eq_nil_iff.mpr (by
      intro r hr
      simp [hall r hr])
    simp [List.filter_append, hnil, hitem]

lemma mem_putByKeys_self (ks : List String) (tbl : List Obj) (item : Obj) :
    item ∈ putByKeys ks tbl item := by
  unfold putByKeys
  by_cases hany : tbl.any (fun r => sameKeys ks r item) = true
  · rw [if_pos hany]
    obtain ⟨r, hr, hsk⟩ := List.any_eq_true.mp hany
    exact List.mem_map.mpr ⟨r, hr, by simp [hsk]⟩
  · rw [if_neg hany]
    simp

lemma map_fieldStr_putByKeys (k : String) (tbl : List Obj) (item : Obj)
    (hany : tbl.any (fun r => sameKeys [k] r item) = true) :
    (putByKeys [k] tbl item).map (fun r => fieldStr r k) =
      tbl.map (fun r => fieldStr r k) := by
  unfold putByKeys
  rw [if_pos hany, List.map_map]
  refine List.map_congr_left ?_
  intro r _
  by_cases h : sameKeys [k] r item = true
  · simp [Function.comp, h, (sameKeys_single k r item h).symm]
  · simp [Function.comp, h]

lemma findByKeys_spec (ks : List (String × String)) (tbl : List Obj) (r : Obj)
    (h : findByKeys ks tbl = some r) :
    r ∈ tbl ∧ ∀ kv ∈ ks, fieldStrEq r kv.1 kv.2 = true := by
  refine ⟨List.mem_of_find?_eq_some h, ?_⟩
  have := List.find?_some h
  exact List.all_eq_true.mp this

/-!  Claim C6: the issuer-URL cache. -/

/-- Claim C6, counterexample. The claim reads "when the cached value was
fetched more than 5 minutes ago it fetches ...; on every other call it
returns the cached value without contacting the parameter store". A cache
fetched exactly 5 minutes ago is not "more than 5 minutes" old, yet the
code (guard `now - cacheTimestamp < CACHE_TTL_MS`) contacts the parameter
store and returns the freshly fetched value. -/
theorem getIssuerUrl_boundary_counterexample :
    getIssuerUrl { baseSt with cachedIssuerUrl := some "https://cached.example",
                               cacheTimestamp := some 1000,
                               nowMs := 1000 + CACHE_TTL_MS,
                               ssmIssuerUrl := some "https://fresh.example" } =
      (.ok "https://fresh.example",
       { baseSt with cachedIssuerUrl := some "https://fresh.example",
                     cacheTimestamp := some (1000 + CACHE_TTL_MS),
                     nowMs := 1000 + CACHE_TTL_MS,
                     ssmIssuerUrl := some "https://fresh.example",
                     ssmReads := 1 }) := by
  rfl

/-- Claim C6 (amended): `getIssuerUrl` returns the cached value, without
contacting the parameter store and without changing any state, exactly
when a nonempty value was cached at a nonzero timestamp strictly less
than five minutes before the current clock; on the first call (nothing
cached) or when the cache is five or more minutes old it fetches the
parameter and refreshes the cached value and its timestamp. -/
theorem getIssuerUrl_cache_contract (st : St) :
    (∀ u t, st.cachedIssuerUrl = some u → u ≠ "" →
      st.cacheTimestamp = some t → t ≠ 0 → st.nowMs - t < CACHE_TTL_MS →
      getIssuerUrl st = (.ok u, st)) ∧
    (∀ v, st.cachedIssuerUrl = none → st.ssmIssuerUrl = some v →
      getIssuerUrl st =
        (.ok v, { st with cachedIssuerUrl := some v, cacheTimestamp := some st.nowMs,
                          ssmReads := st.ssmReads + 1 })) ∧
    (∀ u t v, st.cachedIssuerUrl = some u → st.cacheTimestamp = some t →
      CACHE_TTL_MS ≤ st.nowMs - t → st.ssmIssuerUrl = some v →
      getIssuerUrl st =
        (.ok v, { st with cachedIssuerUrl := some v, cacheTimestamp := some st.nowMs,
                          ssmReads := st.ssmReads + 1 })) := by
  refine ⟨?_, ?_, ?_⟩
  · intro u t hu hne ht htne hlt
    simp [getIssuerUrl, cacheFresh, hu, ht, hne, htne, hlt]
  · intro v hu hv
    simp [getIssuerUrl, cacheFresh, hu, hv]
  · intro u t v hu ht hge hv
    simp [getIssuerUrl, cacheFresh, hu, ht, hv, Nat.not_lt.mpr hge]

/-- Claim C6, witness: the cached branch at a concrete fresh cache, and
the refresh branch at a concrete first call. -/
theorem getIssuerUrl_cache_contract_witness :
    getIssuerUrl { baseSt with cachedIssuerUrl := some "https://cached.example",
                               cacheTimestamp := some 1000, nowMs := 2000,
                               ssmIssuerUrl := some "https://fresh.example" } =
      (.ok "https://cached.example",
       { baseSt with cachedIssuerUrl := some "https://cached.example",
                     cacheTimestamp := some 1000, nowMs := 2000,
                     ssmIssuerUrl := some "https://fresh.example" }) ∧
    getIssuerUrl { baseSt with nowMs := 7, ssmIssuerUrl := some "https://fresh.example" } =
      (.ok "https://fresh.example",
       { baseSt with nowMs := 7, ssmIssuerUrl := some "https://fresh.example",
                     cachedIssuerUrl := some "https://fresh.example",
                     cacheTimestamp := some 7, ssmReads := 1 }) := by
  constructor
  · exact (getIssuerUrl_cache_contract _).1 "https://cached.example" 1000 rfl (by decide)
      rfl (by decide) (by decide)
  · exact (getIssuerUrl_cache_contract _).2.1 "https://fresh.example" rfl rfl

/-!  Claim C1: the signing-key lifecycle. -/

/-- Claim C1, counterexample. The claim reads "when the stored key
structure is absent or incomplete, it generates a new 2048-bit RSA key
pair ... and persists it". When the secret parameter is absent the
`GetParameter` call throws and the catch block rethrows: the call fails,
nothing is generated and nothing is persisted. -/
theorem getSigningKeys_absent_counterexample :
    getSigningKeys { baseSt with nextKeySeed := "seed0" } =
      (.error "ParameterNotFound", { baseSt with nextKeySeed := "seed0", ssmReads := 1 }) ∧
    ({ baseSt with nextKeySeed := "seed0", ssmReads := 1 }).ssmJwtKeys = none := by
  exact ⟨rfl, rfl⟩

/-- Claim C1 (amended): when the stored parameter exists, `getSigningKeys`
returns a complete stored structure unchanged without regenerating or
writing; when the stored structure is incomplete (missing or empty
private or public key) it generates a 2048-bit RSA key pair, a fresh key
identifier and the fixed RS256 tag, failing before the write when the
serialized structure exceeds 4096 characters and otherwise persisting the
new structure; when the parameter itself is absent the call fails without
generating or persisting anything. -/
theorem getSigningKeys_lifecycle (st : St) (keys : Obj)
    (h : st.ssmJwtKeys = some keys) :
    (keysComplete keys = true →
      getSigningKeys st = (.ok keys, { st with ssmReads := st.ssmReads + 1 })) ∧
    (keysComplete keys = false →
      (let pair := generateKeyPair 2048 st.nextKeySeed
       let newKeys : Obj :=
        [("private_key", .jstr pair.2), ("public_key", .jstr pair.1),
         ("kid", .jstr (uuid st.rng)), ("alg", .jstr "RS256")]
       (objJsonLen newKeys ≤ 4096 →
        getSigningKeys st =
          (.ok newKeys, { st with ssmReads := st.ssmReads + 1, rng := st.rng + 1,
                                  ssmJwtKeys := some newKeys })) ∧
       (objJsonLen newKeys > 4096 →
        getSigningKeys st =
          (.error ("JWT keys too large for SSM parameter: " ++
                   toString (objJsonLen newKeys) ++ " bytes (max 4096)"),
           { st with ssmReads := st.ssmReads + 1, rng := st.rng + 1 })))) := by
  constructor
  · intro hc
    simp [getSigningKeys, h, hc]
  · intro hc
    refine ⟨?_, ?_⟩
    · intro hle
      simp [getSigningKeys, h, hc, Nat.not_lt.mpr hle]
    · intro hgt
      simp [getSigningKeys, h, hc, hgt]

/-- Length of the serialized key structure generated from the oversized
seed: it exceeds the 4096-character ceiling. -/
lemma bigSeed_newKeys_large :
    objJsonLen
      [("private_key", .jstr (rsaPriv 2048 bigSeed)), ("public_key", .jstr (rsaPub 2048 bigSeed)),
       ("kid", .jstr (uuid 0)), ("alg", .jstr "RS256")] > 4096 := by
  have h1 : jsonStrLen (rsaPriv 2048 bigSeed) = 2 + 10 + 4200 := by
    rw [show rsaPriv 2048 bigSeed = "PRIV:2048:" ++ bigSeed from rfl, jsonStrLen_append_big]
    norm_num
    decide
  have h2 : jsonStrLen (rsaPub 2048 bigSeed) = 2 + 9 + 4200 := by
    rw [show rsaPub 2048 bigSeed = "PUB:2048:" ++ bigSeed from rfl, jsonStrLen_append_big]
    norm_num
    decide
  simp only [objJsonLen, jvalJsonLen, List.map_cons, List.map_nil, List.sum_cons,
    List.sum_nil, h1, h2, List.length_cons, List.length_nil]
  have h3 : jsonStrLen "private_key" = 13 := by decide
  have h4 : jsonStrLen "public_key" = 12 := by decide
  have h5 : jsonStrLen "kid" = 5 := by decide
  have h6 : jsonStrLen "alg" = 5 := by decide
  have h7 : jsonStrLen (uuid 0) = 27 := by decide
  have h8 : jsonStrLen "RS256" = 7 := by decide
  rw [h3, h4, h5, h6, h7, h8]
  norm_num

/-- A complete stored key structure, for concrete instances. -/
def keysCompleteSample : Obj :=
  [("private_key", .jstr "PRIV:2048:x"), ("public_key", .jstr "PUB:2048:x"),
   ("kid", .jstr "kid-0"), ("alg", .jstr "RS256")]

/-- The key structure generated from the short seed `s` in the quiescent
state. -/
def newKeysSmall : Obj :=
  [("private_key", .jstr (rsaPriv 2048 "s")), ("public_key", .jstr (rsaPub 2048 "s")),
   ("kid", .jstr (uuid 0)), ("alg", .jstr "RS256")]

/-- The key structure generated from the oversized seed in the quiescent
state. -/
def newKeysBig : Obj :=
  [("private_key", .jstr (rsaPriv 2048 bigSeed)), ("public_key", .jstr (rsaPub 2048 bigSeed)),
   ("kid", .jstr (uuid 0)), ("alg", .jstr "RS256")]

/-- Claim C1, witness: the complete structure is returned as stored; an
incomplete structure triggers generation and persistence of a fresh
RS256-tagged 2048-bit pair; with oversized key material the call fails
before writing. -/
theorem getSigningKeys_lifecycle_witness :
    getSigningKeys { baseSt with ssmJwtKeys := some keysCompleteSample } =
      (.ok keysCompleteSample,
       { baseSt with ssmJwtKeys := some keysCompleteSample, ssmReads := 1 }) ∧
    getSigningKeys { baseSt with ssmJwtKeys := some [], nextKeySeed := "s" } =
      (.ok newKeysSmall,
       { baseSt with nextKeySeed := "s", ssmReads := 1, rng := 1,
                     ssmJwtKeys := some newKeysSmall }) ∧
    getSigningKeys { baseSt with ssmJwtKeys := some [], nextKeySeed := bigSeed } =
      (.error ("JWT keys too large for SSM parameter: " ++
               toString (objJsonLen newKeysBig) ++ " bytes (max 4096)"),
       { baseSt with ssmJwtKeys := some [], nextKeySeed := bigSeed, ssmReads := 1, rng := 1 }) := by
  refine ⟨?_, ?_, ?_⟩
  · exact (getSigningKeys_lifecycle _ _ rfl).1 (by decide)
  · exact ((getSigningKeys_lifecycle _ _ rfl).2 (by decide)).1 (by decide)
  · exact ((getSigningKeys_lifecycle _ _ rfl).2 (by decide)).2 bigSeed_newKeys_large

/-!  Claim C3: the password round trip. -/

/-- Claim C3: for a user created by `createUser` under a username the
store does not yet hold, `verifyUserPassword` with the same username and
plaintext returns the created record, and with any other plaintext
returns null. -/
theorem password_roundtrip (st : St) (u p em : String)
    (hfresh : ∀ r ∈ st.users, fieldStrEq r "username" u = false) :
    (verifyUserPassword u p (createUser u p em st).2).1 = some (createUser u p em st).1 ∧
    ∀ q, q ≠ p → (verifyUserPassword u q (createUser u p em st).2).1 = none := by
  have hlookup :
      (((createUser u p em st).2.users.filter
        (fun r => fieldStrEq r "username" u)).head?) = some (createUser u p em st).1 := by
    apply putByKeys_filter_head _ _ _ _ hfresh
    simp [createUser, fieldStrEq, fieldStr, getField]
  have hhash :
      getField (createUser u p em st).1 "password_hash" = some (.jhash p 10 (st.rng + 1)) := by
    simp [createUser, getField, bcryptHash]
  constructor
  · simp [verifyUserPassword, getUserByUsername, hlookup, hhash, bcryptCompare]
  · intro q hq
    simp [verifyUserPassword, getUserByUsername, hlookup, hhash, bcryptCompare, hq]

/-- Claim C3, witness: a concrete user in the empty store; the original
password verifies to the created record, a different one to null. -/
theorem password_roundtrip_witness :
    (verifyUserPassword "alice123" "Passw0rd4"
      (createUser "alice123" "Passw0rd4" "a@example.com" baseSt).2).1 =
      some (createUser "alice123" "Passw0rd4" "a@example.com" baseSt).1 ∧
    (verifyUserPassword "alice123" "OtherPass5"
      (createUser "alice123" "Passw0rd4" "a@example.com" baseSt).2).1 = none := by
  have h := password_roundtrip baseSt "alice123" "Passw0rd4" "a@example.com"
    (by intro r hr; simp [baseSt] at hr)
  exact ⟨h.1, h.2 "OtherPass5" (by decide)⟩

/-!  Claims C5 and C9: the createUser success path. -/

/-- The valid-input precondition of `handleCreateUser` implies the
username is nonempty. -/
lemma idOk_ne_empty (lo hi : Nat) (s : String) (h : idOk lo hi s = true) (hlo : 0 < lo) :
    s ≠ "" := by
  intro hs
  rw [hs] at h
  simp [idOk] at h
  omega

lemma emailOk_ne_empty (s : String) (h : emailOk s = true) : s ≠ "" := by
  intro hs
  rw [hs] at h
  exact absurd h (by decide)

/-- Querying for a username the store does not hold returns null. -/
lemma getUserByUsername_none (st : St) (u : String)
    (hfresh : ∀ r ∈ st.users, fieldStrEq r "username" u = false) :
    getUserByUsername u st = (none, { st with reads := st.reads + 1 }) := by
  unfold getUserByUsername
  rw [List.filter_eq_nil_iff.mpr (by intro r hr; simp [hfresh r hr])]
  rfl

/-- The success path of `handleCreateUser`: with valid, fresh inputs the
handler creates the user and returns the record without its digest. -/
lemma handleCreateUser_success (ev : Obj) (st : St) (u p em : String)
    (hu : evStr ev "username" = u) (hp : evStr ev "password" = p)
    (he : evStr ev "email" = em)
    (hvu : idOk 3 50 u = true) (hve : emailOk em = true) (hvp : 8 ≤ p.length)
    (hfresh : ∀ r ∈ st.users, fieldStrEq r "username" u = false) :
    ManagementUser.handleCreateUser ev st =
      (createResponse 200
        [("message", .s "User created successfully"),
         ("user", .o (removeField (createUser u p em { st with reads := st.reads + 1 }).1
            "password_hash"))],
       (createUser u p em { st with reads := st.reads + 1 }).2) := by
  have hu0 : u ≠ "" := idOk_ne_empty 3 50 u hvu (by omega)
  have hp0 : p ≠ "" := by
    intro hs
    rw [hs] at hvp
    simp at hvp
  have he0 : em ≠ "" := emailOk_ne_empty em hve
  simp [ManagementUser.handleCreateUser, hu, hp, he, hu0, hp0, he0, hvu, hve,
    Nat.not_lt.mpr hvp, getUserByUsername_none st u hfresh]

/-- Claim C5: a valid createUser request with an untaken username
persists the user record including its bcrypt digest, and returns 200
with the generated user id and all user fields except `password_hash`,
which is omitted. -/
theorem create_user_success (ev : Obj) (st : St) (u p em : String)
    (hu : evStr ev "username" = u) (hp : evStr ev "password" = p)
    (he : evStr ev "email" = em)
    (hvu : idOk 3 50 u = true) (hve : emailOk em = true) (hvp : 8 ≤ p.length)
    (hfresh : ∀ r ∈ st.users, fieldStrEq r "username" u = false) :
    ManagementUser.handleCreateUser ev st =
      (createResponse 200
        [("message", .s "User created successfully"),
         ("user", .o (removeField (createUser u p em { st with reads := st.reads + 1 }).1
            "password_hash"))],
       (createUser u p em { st with reads := st.reads + 1 }).2) ∧
    (createUser u p em { st with reads := st.reads + 1 }).1 ∈
      (ManagementUser.handleCreateUser ev st).2.users ∧
    getField (createUser u p em { st with reads := st.reads + 1 }).1 "password_hash" =
      some (.jhash p 10 (st.rng + 1)) ∧
    getField (removeField (createUser u p em { st with reads := st.reads + 1 }).1
      "password_hash") "user_id" = some (.jstr (uuid st.rng)) ∧
    getField (removeField (createUser u p em { st with reads := st.reads + 1 }).1
      "password_hash") "password_hash" = none ∧
    (removeField (createUser u p em { st with reads := st.reads + 1 }).1
      "password_hash").map Prod.fst =
      ["user_id", "username", "email", "email_verified", "created_at", "updated_at"] := by
  have hmain := handleCreateUser_success ev st u p em hu hp he hvu hve hvp hfresh
  refine ⟨hmain, ?_, ?_, ?_, ?_, ?_⟩
  · rw [hmain]
    exact mem_putByKeys_self _ _ _
  · simp [createUser, getField, bcryptHash]
  · simp [createUser, getField, removeField]
  · simp [createUser, getField, removeField]
  · simp [createUser, removeField]

/-- Claim C5, witness: the concrete scenario of the specification. -/
theorem create_user_success_witness :
    ManagementUser.handleCreateUser
      [("operation", .jstr "createUser"), ("username", .jstr "alice123"),
       ("password", .jstr "Passw0rd4"), ("email", .jstr "a@example.com")] baseSt =
      (createResponse 200
        [("message", .s "User created successfully"),
         ("user", .o (removeField
            (createUser "alice123" "Passw0rd4" "a@example.com"
              { baseSt with reads := 1 }).1 "password_hash"))],
       (createUser "alice123" "Passw0rd4" "a@example.com" { baseSt with reads := 1 }).2) ∧
    getField (removeField
      (createUser "alice123" "Passw0rd4" "a@example.com" { baseSt with reads := 1 }).1
      "password_hash") "password_hash" = none := by
  have h := create_user_success
    [("operation", .jstr "createUser"), ("username", .jstr "alice123"),
     ("password", .jstr "Passw0rd4"), ("email", .jstr "a@example.com")]
    baseSt "alice123" "Passw0rd4" "a@example.com" rfl rfl rfl (by decide) (by decide)
    (by decide) (by intro r hr; simp [baseSt] at hr)
  exact ⟨h.1, h.2.2.2.2.1⟩

/-- The createUser handler reads only the username, password and email
fields of the event. -/
lemma handleCreateUser_congr (ev ev' : Obj) (st : St)
    (h1 : evStr ev "username" = evStr ev' "username")
    (h2 : evStr ev "password" = evStr ev' "password")
    (h3 : evStr ev "email" = evStr ev' "email") :
    ManagementUser.handleCreateUser ev st = ManagementUser.handleCreateUser ev' st := by
  unfold ManagementUser.handleCreateUser
  rw [h1, h2, h3]

lemma evStr_setField_ne (ev : Obj) (k k' : String) (v : JVal) (h : k' ≠ k) :
    evStr (setField ev k v) k' = evStr ev k' := by
  unfold evStr fieldStr
  rw [getField_setField_ne ev k k' v h]

/-- Claim C9: the optional `profile` field of a createUser event is
silently discarded — `createUser` does not take it, so the handler result
is independent of whatever profile value the event holds, and the
persisted record carries exactly the seven user fields. -/
theorem create_user_profile_dropped (ev : Obj) (st : St) (u p em : String)
    (hu : evStr ev "username" = u) (hp : evStr ev "password" = p)
    (he : evStr ev "email" = em)
    (hvu : idOk 3 50 u = true) (hve : emailOk em = true) (hvp : 8 ≤ p.length)
    (hfresh : ∀ r ∈ st.users, fieldStrEq r "username" u = false) :
    ((createUser u p em { st with reads := st.reads + 1 }).1).map Prod.fst =
      ["user_id", "username", "password_hash", "email", "email_verified",
       "created_at", "updated_at"] ∧
    (ManagementUser.handleCreateUser ev st).2.users =
      putByKeys ["user_id"] st.users
        (createUser u p em { st with reads := st.reads + 1 }).1 ∧
    ∀ prof : JVal,
      ManagementUser.handleCreateUser (setField ev "profile" prof) st =
        ManagementUser.handleCreateUser ev st := by
  refine ⟨by simp [createUser], ?_, ?_⟩
  · rw [handleCreateUser_success ev st u p em hu hp he hvu hve hvp hfresh]
    rfl
  · intro prof
    exact handleCreateUser_congr _ _ _
      (evStr_setField_ne ev "profile" "username" prof (by decide))
      (evStr_setField_ne ev "profile" "password" prof (by decide))
      (evStr_setField_ne ev "profile" "email" prof (by decide))

/-- Claim C9, witness: a concrete event carrying a profile object creates
a record with exactly the seven fields, and changing the profile leaves
the handler result unchanged. -/
theorem create_user_profile_dropped_witness :
    ((createUser "bob-7" "Hunter2345" "b@example.org" { baseSt with reads := 1 }).1).map
      Prod.fst =
      ["user_id", "username", "password_hash", "email", "email_verified",
       "created_at", "updated_at"] ∧
    ManagementUser.handleCreateUser
      (setField
        [("operation", .jstr "createUser"), ("username", .jstr "bob-7"),
         ("password", .jstr "Hunter2345"), ("email", .jstr "b@example.org")]
        "profile" (.jstr "ignored")) baseSt =
      ManagementUser.handleCreateUser
        [("operation", .jstr "createUser"), ("username", .jstr "bob-7"),
         ("password", .jstr "Hunter2345"), ("email", .jstr "b@example.org")] baseSt := by
  have h := create_user_profile_dropped
    [("operation", .jstr "createUser"), ("username", .jstr "bob-7"),
     ("password", .jstr "Hunter2345"), ("email", .jstr "b@example.org")]
    baseSt "bob-7" "Hunter2345" "b@example.org" rfl rfl rfl (by decide) (by decide)
    (by decide) (by intro r hr; simp [baseSt] at hr)
  exact ⟨h.1, h.2.2 (.jstr "ignored")⟩

/-!  Claim C4: duplicate unique keys on create. -/

lemma isInvalidRequest_createErrorResponse (msg : String) :
    isInvalidRequest (createErrorResponse "invalid_request" msg 400) :=
  ⟨rfl, rfl⟩

/-- Every error the redirect-URI loop produces is a 400 invalid_request. -/
lemma checkUris_invalid (us : List String) (r : Resp) (h : checkUris us = some r) :
    isInvalidRequest r := by
  induction us with
  | nil => simp [checkUris] at h
  | cons u rest ih =>
    simp only [checkUris] at h
    cases hs : urlScheme u with
    | none =>
      simp only [hs] at h
      cases h
      exact isInvalidRequest_createErrorResponse _
    | some pr =>
      simp only [hs] at h
      split at h
      · cases h
        exact isInvalidRequest_createErrorResponse _
      · exact ih (by assumption)

/-- A successful username query contradicts an empty filter result. -/
lemma head_filter_ne_none (tbl : List Obj) (q : Obj → Bool) (r : Obj)
    (hr : r ∈ tbl) (hq : q r = true) : (tbl.filter q).head? ≠ none := by
  intro h
  rw [List.head?_eq_none_iff] at h
  have := List.filter_eq_nil_iff.mp h r hr
  simp [hq] at this

/-- A createUser event whose username is already taken ends in a 400
invalid_request with all tables untouched. -/
lemma handleCreateUser_dup (ev : Obj) (st : St) (u : String)
    (hu : evStr ev "username" = u)
    (hex : ∃ r ∈ st.users, fieldStrEq r "username" u = true) :
    isInvalidRequest (ManagementUser.handleCreateUser ev st).1 ∧
    tables (ManagementUser.handleCreateUser ev st).2 = tables st := by
  obtain ⟨r0, hr0, hq0⟩ := hex
  simp only [ManagementUser.handleCreateUser, getUserByUsername, hu]
  split
  · exact ⟨isInvalidRequest_createErrorResponse _, rfl⟩
  split
  · exact ⟨isInvalidRequest_createErrorResponse _, rfl⟩
  split
  · exact ⟨isInvalidRequest_createErrorResponse _, rfl⟩
  split
  · exact ⟨isInvalidRequest_createErrorResponse _, rfl⟩
  split
  · next heq =>
    injection heq with hfind hstate
    subst hstate
    exact ⟨isInvalidRequest_createErrorResponse _, rfl⟩
  · next heq =>
    injection heq with hfind hstate
    exact absurd hfind (head_filter_ne_none st.users _ r0 hr0 hq0)

/-- A createClient event whose client id already exists ends in a 400
invalid_request with all tables untouched. -/
lemma handleCreateClient_dup (ev : Obj) (st : St) (cid : String)
    (hc : evStr ev "client_id" = cid)
    (hex : (findByKeys [("client_id", cid)] st.clients).isSome = true) :
    isInvalidRequest (ManagementClient.handleCreateClient ev st).1 ∧
    tables (ManagementClient.handleCreateClient ev st).2 = tables st := by
  simp only [ManagementClient.handleCreateClient, getClientById, hc]
  split
  · exact ⟨isInvalidRequest_createErrorResponse _, rfl⟩
  split
  · exact ⟨isInvalidRequest_createErrorResponse _, rfl⟩
  split
  · next us _ =>
    split
    · exact ⟨isInvalidRequest_createErrorResponse _, rfl⟩
    · split
      · next r hcu => exact ⟨checkUris_invalid us r hcu, rfl⟩
      · split
        · next heq =>
          injection heq with hfind hstate
          subst hstate
          exact ⟨isInvalidRequest_createErrorResponse _, rfl⟩
        · next heq =>
          injection heq with hfind hstate
          rw [hfind] at hex
          simp at hex
  · exact ⟨isInvalidRequest_createErrorResponse _, rfl⟩

/-- A createApplication event with an explicit, already existing
application id ends in a 400 invalid_request with all tables untouched. -/
lemma handleCreateApplication_dup (ev : Obj) (st : St) (aid : String)
    (ha : evStr ev "application_id" = aid) (hne : aid ≠ "")
    (hex : (findByKeys [("application_id", aid)] st.applications).isSome = true) :
    isInvalidRequest (ManagementApplication.handleCreateApplication ev st).1 ∧
    tables (ManagementApplication.handleCreateApplication ev st).2 = tables st := by
  simp only [ManagementApplication.handleCreateApplication, getClientById,
    getApplicationById, ha]
  split
  · exact ⟨isInvalidRequest_createErrorResponse _, rfl⟩
  split
  · exact ⟨isInvalidRequest_createErrorResponse _, rfl⟩
  split
  · next heq =>
    injection heq with hfind hstate
    subst hstate
    exact ⟨isInvalidRequest_createErrorResponse _, rfl⟩
  · next heq =>
    injection heq with hfind hstate
    subst hstate
    split
    · split
      · next heq2 =>
        injection heq2 with hfind2 hstate2
        subst hstate2
        exact ⟨isInvalidRequest_createErrorResponse _, rfl⟩
      · next heq2 =>
        injection heq2 with hfind2 hstate2
        rw [hfind2] at hex
        simp at hex
    · next hfalse =>
      simp [hne] at hfalse

/-- A createUserApplication event whose mapping pair already exists ends
in a 400 invalid_request with all tables untouched. -/
lemma handleCreateUserApplication_dup (ev : Obj) (st : St) (uid aid : String)
    (h1 : evStr ev "user_id" = uid) (h2 : evStr ev "application_id" = aid)
    (hex : (findByKeys [("user_id", uid), ("application_id", aid)]
      st.userApplications).isSome = true) :
    isInvalidRequest (ManagementUserApplication.handleCreateUserApplication ev st).1 ∧
    tables (ManagementUserApplication.handleCreateUserApplication ev st).2 = tables st := by
  simp only [ManagementUserApplication.handleCreateUserApplication, getUserById,
    getApplicationById, getUserApplication, h1, h2]
  split
  · exact ⟨isInvalidRequest_createErrorResponse _, rfl⟩
  split
  · next heq =>
    injection heq with hfind hstate
    subst hstate
    exact ⟨isInvalidRequest_createErrorResponse _, rfl⟩
  · next heq =>
    injection heq with hfind hstate
    subst hstate
    split
    · next heq2 =>
      injection heq2 with hfind2 hstate2
      subst hstate2
      exact ⟨isInvalidRequest_createErrorResponse _, rfl⟩
    · next heq2 =>
      injection heq2 with hfind2 hstate2
      subst hstate2
      split
      · next heq3 =>
        injection heq3 with hfind3 hstate3
        subst hstate3
        exact ⟨isInvalidRequest_createErrorResponse _, rfl⟩
      · next heq3 =>
        injection heq3 with hfind3 hstate3
        rw [hfind3] at hex
        simp at hex

/-- Claim C4: every create request whose unique key (username, client_id,
explicit application_id, or the user/application pair) already exists in
the store yields a 400 invalid_request response and leaves every stored
table unchanged. -/
theorem duplicate_create_conflict (evU evC evA evM : Obj) (st : St)
    (u cid aid uid mid : String)
    (huU : evStr evU "username" = u)
    (hexU : ∃ r ∈ st.users, fieldStrEq r "username" u = true)
    (huC : evStr evC "client_id" = cid)
    (hexC : (findByKeys [("client_id", cid)] st.clients).isSome = true)
    (huA : evStr evA "application_id" = aid) (haNe : aid ≠ "")
    (hexA : (findByKeys [("application_id", aid)] st.applications).isSome = true)
    (huM1 : evStr evM "user_id" = uid) (huM2 : evStr evM "application_id" = mid)
    (hexM : (findByKeys [("user_id", uid), ("application_id", mid)]
      st.userApplications).isSome = true) :
    (isInvalidRequest (ManagementUser.handleCreateUser evU st).1 ∧
      tables (ManagementUser.handleCreateUser evU st).2 = tables st) ∧
    (isInvalidRequest (ManagementClient.handleCreateClient evC st).1 ∧
      tables (ManagementClient.handleCreateClient evC st).2 = tables st) ∧
    (isInvalidRequest (ManagementApplication.handleCreateApplication evA st).1 ∧
      tables (ManagementApplication.handleCreateApplication evA st).2 = tables st) ∧
    (isInvalidRequest (ManagementUserApplication.handleCreateUserApplication evM st).1 ∧
      tables (ManagementUserApplication.handleCreateUserApplication evM st).2 = tables st) :=
  ⟨handleCreateUser_dup evU st u huU hexU,
   handleCreateClient_dup evC st cid huC hexC,
   handleCreateApplication_dup evA st aid huA haNe hexA,
   handleCreateUserApplication_dup evM st uid mid huM1 huM2 hexM⟩

/-- A store already holding one record of each kind, for concrete
duplicate-create instances. -/
def stDup : St :=
  { baseSt with
    users := [[("user_id", .jstr "u-1"), ("username", .jstr "alice123")]],
    clients := [[("client_id", .jstr "client-1")]],
    applications := [[("application_id", .jstr "app-1")]],
    userApplications := [[("user_id", .jstr "u-1"), ("application_id", .jstr "app-1")]] }

/-- Claim C4, witness: concrete duplicate create requests against a store
holding each unique key. -/
theorem duplicate_create_conflict_witness :
    (isInvalidRequest (ManagementUser.handleCreateUser
        [("username", .jstr "alice123"), ("password", .jstr "Passw0rd4"),
         ("email", .jstr "a@example.com")] stDup).1 ∧
      tables (ManagementUser.handleCreateUser
        [("username", .jstr "alice123"), ("password", .jstr "Passw0rd4"),
         ("email", .jstr "a@example.com")] stDup).2 = tables stDup) ∧
    (isInvalidRequest (ManagementClient.handleCreateClient
        [("client_id", .jstr "client-1"), ("client_secret", .jstr "sec"),
         ("redirect_uris", .jarrs ["https://x.example/cb"]), ("name", .jstr "N")] stDup).1 ∧
      tables (ManagementClient.handleCreateClient
        [("client_id", .jstr "client-1"), ("client_secret", .jstr "sec"),
         ("redirect_uris", .jarrs ["https://x.example/cb"]), ("name", .jstr "N")] stDup).2 =
        tables stDup) ∧
    (isInvalidRequest (ManagementApplication.handleCreateApplication
        [("application_id", .jstr "app-1"), ("client_id", .jstr "client-1"),
         ("name", .jstr "A")] stDup).1 ∧
      tables (ManagementApplication.handleCreateApplication
        [("application_id", .jstr "app-1"), ("client_id", .jstr "client-1"),
         ("name", .jstr "A")] stDup).2 = tables stDup) ∧
    (isInvalidRequest (ManagementUserApplication.handleCreateUserApplication
        [("user_id", .jstr "u-1"), ("application_id", .jstr "app-1")] stDup).1 ∧
      tables (ManagementUserApplication.handleCreateUserApplication
        [("user_id", .jstr "u-1"), ("application_id", .jstr "app-1")] stDup).2 =
        tables stDup) := by
  exact duplicate_create_conflict _ _ _ _ stDup "alice123" "client-1" "app-1" "u-1" "app-1"
    rfl ⟨[("user_id", .jstr "u-1"), ("username", .jstr "alice123")], by simp [stDup], by decide⟩
    rfl (by decide) rfl (by decide) (by decide) rfl rfl (by decide)

/-!  Claim C2: JWT round trip. -/

lemma getField_of_fieldStr (r : Obj) (k s : String) (h : fieldStr r k = some s) :
    getField r k = some (.jstr s) := by
  unfold fieldStr at h
  cases hg : getField r k <;> rw [hg] at h
  · cases h
  · next v =>
    cases v <;> simp at h
    rw [h]

lemma fieldStr_of_fieldStrEq (r : Obj) (k v : String) (h : fieldStrEq r k v = true) :
    fieldStr r k = some v := by
  simpa [fieldStrEq] using h

/-- The client id of every record of a clients table. -/
def clientIdsOf (tbl : List Obj) : List (Option String) :=
  tbl.map (fun r => fieldStr r "client_id")

/-- Claim C7: updating a stored client pins `client_id` back to the key —
even when the updates object carries a different client_id — and every
operation on the clients table (updateClient, createClient, and the
readers getClientById and validateClient) preserves the client ids of all
stored records, clients only ever being added. -/
theorem client_id_immutable (st : St) (cid : String) (updates client : Obj)
    (hfind : findByKeys [("client_id", cid)] st.clients = some client) :
    (∀ upd, (updateClient cid updates st).1 = .ok upd →
      getField upd "client_id" = some (.jstr cid)) ∧
    clientIdsOf (updateClient cid updates st).2.clients = clientIdsOf st.clients ∧
    (∀ cid2 secret uris nm ds,
      clientIdsOf (createClient cid2 secret uris nm ds st).2.clients =
        clientIdsOf st.clients ∨
      clientIdsOf (createClient cid2 secret uris nm ds st).2.clients =
        clientIdsOf st.clients ++ [some cid2]) ∧
    (getClientById cid st).2.clients = st.clients ∧
    (∀ cs ru, (validateClient cid cs ru st).2.clients = st.clients) := by
  have hspec := findByKeys_spec _ _ _ hfind
  have hcid : fieldStr client "client_id" = some cid :=
    fieldStr_of_fieldStrEq _ _ _ (hspec.2 ("client_id", cid) (by simp))
  have hupdated :
      updateClient cid updates st =
        (.ok (setField (setField (mergeObj client updates) "client_id" (.jstr cid))
          "updated_at" (.jstr (isoTimestamp st.nowMs))),
         { st with reads := st.reads + 1,
                   clients := putByKeys ["client_id"] st.clients
                     (setField (setField (mergeObj client updates) "client_id" (.jstr cid))
                       "updated_at" (.jstr (isoTimestamp st.nowMs))) }) := by
    simp [updateClient, getClientById, hfind]
  have hpin :
      getField (setField (setField (mergeObj client updates) "client_id" (.jstr cid))
        "updated_at" (.jstr (isoTimestamp st.nowMs))) "client_id" = some (.jstr cid) := by
    rw [getField_setField_ne _ _ _ _ (by decide), getField_setField_self]
  refine ⟨?_, ?_, ?_, rfl, ?_⟩
  · intro upd hupd
    rw [hupdated] at hupd
    simp only at hupd
    injection hupd with h1
    rw [← h1]
    exact hpin
  · rw [hupdated]
    apply map_fieldStr_putByKeys
    apply List.any_eq_true.mpr
    refine ⟨client, hspec.1, ?_⟩
    have hcidU : fieldStr (setField (setField (mergeObj client updates) "client_id" (.jstr cid))
        "updated_at" (.jstr (isoTimestamp st.nowMs))) "client_id" = some cid := by
      unfold fieldStr
      rw [hpin]
    simp [sameKeys, hcid, hcidU]
  · intro cid2 secret uris nm ds
    have hcidC : fieldStr
        [("client_id", JVal.jstr cid2), ("client_secret", .jstr secret),
         ("redirect_uris", .jarrs uris), ("name", .jstr nm), ("description", .jstr ds),
         ("created_at", .jstr (isoTimestamp st.nowMs)),
         ("updated_at", .jstr (isoTimestamp st.nowMs))] "client_id" = some cid2 := by
      simp [fieldStr, getField]
    by_cases hany : st.clients.any (fun r => sameKeys ["client_id"] r
        [("client_id", JVal.jstr cid2), ("client_secret", .jstr secret),
         ("redirect_uris", .jarrs uris), ("name", .jstr nm), ("description", .jstr ds),
         ("created_at", .jstr (isoTimestamp st.nowMs)),
         ("updated_at", .jstr (isoTimestamp st.nowMs))]) = true
    · left
      simp only [createClient, clientIdsOf]
      exact map_fieldStr_putByKeys _ _ _ hany
    · right
      simp only [createClient, clientIdsOf, putByKeys, if_neg hany, List.map_append]
      rw [List.map_singleton, hcidC]
  · intro cs ru
    simp only [validateClient, getClientById]
    split
    · next heq =>
      injection heq with h1 h2
      subst h2
      rfl
    · next heq =>
      injection heq with h1 h2
      subst h2
      split
      · rfl
      split <;> rfl

/-- A store holding one client, for the immutability instance. -/
def stClient : St :=
  { baseSt with clients :=
      [[("client_id", .jstr "c1"), ("client_secret", .jstr "s1"),
        ("name", .jstr "N"), ("created_at", .jstr "t0")]] }

/-- Claim C7, witness: an update that tries to overwrite client_id leaves
the stored key unchanged, and the table keeps exactly its client ids. -/
theorem client_id_immutable_witness :
    getField (((updateClient "c1" [("client_id", .jstr "EVIL"), ("name", .jstr "N2")]
      stClient).1.toOption).getD []) "client_id" = some (.jstr "c1") ∧
    clientIdsOf (updateClient "c1" [("client_id", .jstr "EVIL"), ("name", .jstr "N2")]
      stClient).2.clients = clientIdsOf stClient.clients := by
  have h := client_id_immutable stClient "c1"
    [("client_id", .jstr "EVIL"), ("name", .jstr "N2")]
    [("client_id", .jstr "c1"), ("client_secret", .jstr "s1"),
     ("name", .jstr "N"), ("created_at", .jstr "t0")] rfl
  exact ⟨h.1 _ rfl, h.2.1⟩

/-!  Claim C10: verbatim merge on update. -/

/-- Claim C10: each update operation merges every caller-supplied field
other than the pinned key fields verbatim over the stored record —
including fields such as created_at or client_secret — sets updated_at to
a fresh timestamp of the current clock, and leaves every stored field not
named in the updates (other than updated_at) at its previous value. -/
theorem update_merge_semantics (st : St) :
    (∀ cid updates client,
      findByKeys [("client_id", cid)] st.clients = some client →
      (updates.map Prod.fst).Nodup →
      ∀ upd, (updateClient cid updates st).1 = .ok upd →
        (∀ k, k ≠ "client_id" → k ≠ "updated_at" →
          getField upd k = fieldOr (getField updates k) (getField client k)) ∧
        getField upd "updated_at" = some (.jstr (isoTimestamp st.nowMs)) ∧
        getField upd "client_id" = some (.jstr cid)) ∧
    (∀ aid updates application,
      findByKeys [("application_id", aid)] st.applications = some application →
      (updates.map Prod.fst).Nodup →
      ∀ upd, (updateApplication aid updates st).1 = .ok upd →
        (∀ k, k ≠ "application_id" → k ≠ "updated_at" →
          getField upd k = fieldOr (getField updates k) (getField application k)) ∧
        getField upd "updated_at" = some (.jstr (isoTimestamp st.nowMs)) ∧
        getField upd "application_id" = some (.jstr aid)) ∧
    (∀ uid aid updates ua,
      findByKeys [("user_id", uid), ("application_id", aid)] st.userApplications = some ua →
      (updates.map Prod.fst).Nodup →
      ∀ upd, (updateUserApplication uid aid updates st).1 = .ok upd →
        (∀ k, k ≠ "user_id" → k ≠ "application_id" → k ≠ "updated_at" →
          getField upd k = fieldOr (getField updates k) (getField ua k)) ∧
        getField upd "updated_at" = some (.jstr (isoTimestamp st.nowMs)) ∧
        getField upd "user_id" = some (.jstr uid) ∧
        getField upd "application_id" = some (.jstr aid)) := by
  refine ⟨?_, ?_, ?_⟩
  · intro cid updates client hfind hnd upd hupd
    simp only [updateClient, getClientById, hfind] at hupd
    injection hupd with h
    rw [← h]
    refine ⟨?_, ?_, ?_⟩
    · intro k hk1 hk2
      rw [getField_setField_ne _ _ _ _ hk2, getField_setField_ne _ _ _ _ hk1,
        getField_mergeObj _ _ _ hnd]
    · rw [getField_setField_self]
    · rw [getField_setField_ne _ _ _ _ (by decide), getField_setField_self]
  · intro aid updates application hfind hnd upd hupd
    simp only [updateApplication, getApplicationById, hfind] at hupd
    injection hupd with h
    rw [← h]
    refine ⟨?_, ?_, ?_⟩
    · intro k hk1 hk2
      rw [getField_setField_ne _ _ _ _ hk2, getField_setField_ne _ _ _ _ hk1,
        getField_mergeObj _ _ _ hnd]
    · rw [getField_setField_self]
    · rw [getField_setField_ne _ _ _ _ (by decide), getField_setField_self]
  · intro uid aid updates ua hfind hnd upd hupd
    simp only [updateUserApplication, getUserApplication, hfind] at hupd
    injection hupd with h
    rw [← h]
    refine ⟨?_, ?_, ?_, ?_⟩
    · intro k hk1 hk2 hk3
      rw [getField_setField_ne _ _ _ _ hk3, getField_setField_ne _ _ _ _ hk2,
        getField_setField_ne _ _ _ _ hk1, getField_mergeObj _ _ _ hnd]
    · rw [getField_setField_self]
    · rw [getField_setField_ne _ _ _ _ (by decide),
        getField_setField_ne _ _ _ _ (by decide), getField_setField_self]
    · rw [getField_setField_ne _ _ _ _ (by decide), getField_setField_self]

/-- A store holding one client, one application and one mapping, for the
merge instance. -/
def stMerge : St :=
  { baseSt with
    clients :=
      [[("client_id", .jstr "c1"), ("client_secret", .jstr "s1"),
        ("name", .jstr "N"), ("created_at", .jstr "t0")]],
    applications :=
      [[("application_id", .jstr "a1"), ("client_id", .jstr "c1"),
        ("name", .jstr "A"), ("account", .jstr "acct0"), ("created_at", .jstr "t0")]],
    userApplications :=
      [[("user_id", .jstr "u1"), ("application_id", .jstr "a1"),
        ("account", .jstr "acct0"), ("created_at", .jstr "t0")]] }

/-- Claim C10, witness: a concrete update that overwrites created_at and
client_secret verbatim, leaves the unnamed name field at its old value,
refreshes updated_at, and keeps the pinned keys. -/
theorem update_merge_semantics_witness :
    getField (((updateClient "c1"
        [("client_id", .jstr "EVIL"), ("created_at", .jstr "t9"),
         ("client_secret", .jstr "s2")] stMerge).1.toOption).getD []) "created_at" =
      some (.jstr "t9") ∧
    getField (((updateClient "c1"
        [("client_id", .jstr "EVIL"), ("created_at", .jstr "t9"),
         ("client_secret", .jstr "s2")] stMerge).1.toOption).getD []) "client_secret" =
      some (.jstr "s2") ∧
    getField (((updateClient "c1"
        [("client_id", .jstr "EVIL"), ("created_at", .jstr "t9"),
         ("client_secret", .jstr "s2")] stMerge).1.toOption).getD []) "name" =
      some (.jstr "N") ∧
    getField (((updateClient "c1"
        [("client_id", .jstr "EVIL"), ("created_at", .jstr "t9"),
         ("client_secret", .jstr "s2")] stMerge).1.toOption).getD []) "updated_at" =
      some (.jstr (isoTimestamp 0)) ∧
    getField (((updateClient "c1"
        [("client_id", .jstr "EVIL"), ("created_at", .jstr "t9"),
         ("client_secret", .jstr "s2")] stMerge).1.toOption).getD []) "client_id" =
      some (.jstr "c1") ∧
    getField (((updateUserApplication "u1" "a1" [("account", .jstr "acct9")]
        stMerge).1.toOption).getD []) "account" = some (.jstr "acct9") ∧
    getField (((updateUserApplication "u1" "a1" [("account", .jstr "acct9")]
        stMerge).1.toOption).getD []) "user_id" = some (.jstr "u1") ∧
    getField (((updateApplication "a1" [("name", .jstr "A2")]
        stMerge).1.toOption).getD []) "name" = some (.jstr "A2") ∧
    getField (((updateApplication "a1" [("name", .jstr "A2")]
        stMerge).1.toOption).getD []) "application_id" = some (.jstr "a1") := by
  have h := update_merge_semantics stMerge
  have hc := h.1 "c1"
    [("client_id", .jstr "EVIL"), ("created_at", .jstr "t9"), ("client_secret", .jstr "s2")]
    [("client_id", .jstr "c1"), ("client_secret", .jstr "s1"),
     ("name", .jstr "N"), ("created_at", .jstr "t0")] rfl (by decide) _ rfl
  have ha := h.2.1 "a1" [("name", .jstr "A2")]
    [("application_id", .jstr "a1"), ("client_id", .jstr "c1"),
     ("name", .jstr "A"), ("account", .jstr "acct0"), ("created_at", .jstr "t0")]
    rfl (by decide) _ rfl
  have hm := h.2.2 "u1" "a1" [("account", .jstr "acct9")]
    [("user_id", .jstr "u1"), ("application_id", .jstr "a1"),
     ("account", .jstr "acct0"), ("created_at", .jstr "t0")] rfl (by decide) _ rfl
  refine ⟨?_, ?_, ?_, ?_, ?_, ?_, ?_, ?_, ?_⟩
  · exact (hc.1 "created_at" (by decide) (by decide)).trans rfl
  · exact (hc.1 "client_secret" (by decide) (by decide)).trans rfl
  · exact (hc.1 "name" (by decide) (by decide)).trans rfl
  · exact hc.2.1
  · exact hc.2.2
  · exact (hm.1 "account" (by decide) (by decide) (by decide)).trans rfl
  · exact hm.2.2.1
  · exact (ha.1 "name" (by decide) (by decide)).trans rfl
  · exact ha.2.2

/-!  Claim C8: missing or unsupported operations. -/

/-- Claim C8: an event whose operation discriminator is missing (falsy)
or not one of the handler's supported operations makes each of the four
management dispatchers return a 400 invalid_request naming the valid
operations, with the state — tables, parameters and read counters —
entirely unchanged. -/
theorem invalid_operation_rejected (ev : Obj) (st : St) :
    (truthyO (getField ev "operation") = false →
      ManagementUser.handler ev st =
        (createErrorResponse "invalid_request"
          "Missing operation parameter. Valid operations: createUser, resetPassword" 400, st) ∧
      ManagementClient.handler ev st =
        (createErrorResponse "invalid_request"
          "Missing operation parameter. Valid operations: createClient, updateClient" 400, st) ∧
      ManagementApplication.handler ev st =
        (createErrorResponse "invalid_request"
          "Missing operation parameter. Valid operations: createApplication, updateApplication" 400, st) ∧
      ManagementUserApplication.handler ev st =
        (createErrorResponse "invalid_request"
          "Missing operation parameter. Valid operations: createUserApplication, updateUserApplication" 400, st)) ∧
    (∀ v, getField ev "operation" = some v → truthy v = true →
      (v ≠ .jstr "createUser" → v ≠ .jstr "resetPassword" →
        ManagementUser.handler ev st =
          (createErrorResponse "invalid_request"
            ("Unknown operation: " ++ jsShow v ++
             ". Valid operations: createUser, resetPassword") 400, st)) ∧
      (v ≠ .jstr "createClient" → v ≠ .jstr "updateClient" →
        ManagementClient.handler ev st =
          (createErrorResponse "invalid_request"
            ("Unknown operation: " ++ jsShow v ++
             ". Valid operations: createClient, updateClient") 400, st)) ∧
      (v ≠ .jstr "createApplication" → v ≠ .jstr "updateApplication" →
        ManagementApplication.handler ev st =
          (createErrorResponse "invalid_request"
            ("Unknown operation: " ++ jsShow v ++
             ". Valid operations: createApplication, updateApplication") 400, st)) ∧
      (v ≠ .jstr "createUserApplication" → v ≠ .jstr "updateUserApplication" →
        ManagementUserApplication.handler ev st =
          (createErrorResponse "invalid_request"
            ("Unknown operation: " ++ jsShow v ++
             ". Valid operations: createUserApplication, updateUserApplication") 400, st))) := by
  constructor
  · intro hm
    refine ⟨?_, ?_, ?_, ?_⟩ <;>
      simp [ManagementUser.handler, ManagementClient.handler,
        ManagementApplication.handler, ManagementUserApplication.handler, hm]
  · intro v hv htr
    refine ⟨?_, ?_, ?_, ?_⟩ <;> intro hne1 hne2 <;>
      simp [ManagementUser.handler, ManagementClient.handler,
        ManagementApplication.handler, ManagementUserApplication.handler,
        truthyO, hv, htr, hne1, hne2]

/-- Claim C8, witness: an event with no operation field and an event with
an unknown operation, against each of the four dispatchers. -/
theorem invalid_operation_rejected_witness :
    ManagementUser.handler [] baseSt =
      (createErrorResponse "invalid_request"
        "Missing operation parameter. Valid operations: createUser, resetPassword" 400,
       baseSt) ∧
    ManagementClient.handler [] baseSt =
      (createErrorResponse "invalid_request"
        "Missing operation parameter. Valid operations: createClient, updateClient" 400,
       baseSt) ∧
    ManagementUser.handler [("operation", .jstr "deleteEverything")] baseSt =
      (createErrorResponse "invalid_request"
        ("Unknown operation: deleteEverything. Valid operations: createUser, resetPassword")
        400, baseSt) ∧
    ManagementClient.handler [("operation", .jstr "deleteEverything")] baseSt =
      (createErrorResponse "invalid_request"
        ("Unknown operation: deleteEverything. Valid operations: createClient, updateClient")
        400, baseSt) ∧
    ManagementApplication.handler [("operation", .jstr "deleteEverything")] baseSt =
      (createErrorResponse "invalid_request"
        ("Unknown operation: deleteEverything. Valid operations: createApplication, updateApplication")
        400, baseSt) ∧
    ManagementUserApplication.handler [("operation", .jstr "deleteEverything")] baseSt =
      (createErrorResponse "invalid_request"
        ("Unknown operation: deleteEverything. Valid operations: createUserApplication, updateUserApplication")
        400, baseSt) := by
  have hmiss := (invalid_operation_rejected [] baseSt).1 rfl
  have hunk := (invalid_operation_rejected [("operation", .jstr "deleteEverything")] baseSt).2
    (.jstr "deleteEverything") rfl (by decide)
  exact ⟨hmiss.1, hmiss.2.1,
    hunk.1 (by decide) (by decide), hunk.2.1 (by decide) (by decide),
    hunk.2.2.1 (by decide) (by decide), hunk.2.2.2 (by decide) (by decide)⟩

end Oidc
